import Mathlib

/-
  Verification development for the zero2prod newsletter service.

  Shallow embedding of the subscriber-lifecycle and newsletter fan-out
  pipeline: the credential validator (src/authentication.rs and
  src/authentication/password.rs), the newsletters route
  (src/routes/newsletters.rs), the subscription registrar
  (src/routes/subscriptions.rs), the confirmation handler
  (src/routes/subscriptions_confirm.rs) and the name validator
  (src/domain.rs).

  External effects are modelled explicitly: the Argon2 password-hash
  library is an oracle record of boolean functions, database and
  gateway success/failure are boolean oracles, random values (uuid,
  token) are parameters, and HTTP statuses are plain naturals.
-/

set_option autoImplicit false

namespace Zero2Prod

/-! ## Shared data model (database rows, per migrations and tests) -/

/-- Subscription status column values used by the code:
    the insert writes pending_confirmation, the newsletter query
    filters on confirmed. -/
inductive SubStatus where
  | pendingConfirmation
  | confirmed
deriving DecidableEq, Repr

/-- A row of the subscriptions table. -/
structure SubscriberRow where
  id : Nat
  email : String
  name : String
  status : SubStatus
deriving DecidableEq, Repr

/-- A row of the subscription_tokens table. -/
structure TokenRow where
  subscription_token : String
  subscriber_id : Nat
deriving DecidableEq, Repr

/-- A row of the users table. Per the repository migrations, tests
    (tests/api/helpers.rs inserts user_id, username, password_hash) and
    src/authentication.rs, the credential columns are username and
    password_hash; there is no plaintext password column. -/
structure UserRow where
  user_id : Nat
  username : String
  password_hash : String
deriving DecidableEq, Repr

/-- The durable store: subscriptions and their confirmation tokens. -/
structure Store where
  subscriptions : List SubscriberRow
  subscription_tokens : List TokenRow
deriving DecidableEq, Repr

/-! ## CredentialValidator (src/authentication.rs, src/authentication/password.rs) -/

namespace Authentication

/-- Username and password supplied by the caller
    (struct Credentials in src/authentication.rs). -/
structure Credentials where
  username : String
  password : String

/-- AuthError from src/authentication.rs: InvalidCredentials wraps a
    source error, UnexpectedError wraps anyhow::Error. The wrapped
    causes are irrelevant to control flow and are not modelled. -/
inductive AuthError where
  | invalidCredentials
  | unexpectedError
deriving DecidableEq, Repr

/-- The fixed well-known reference PHC string hard-coded in
    validate_credentials in src/authentication.rs (the Rust literal is
    one string split by backslash line continuations). -/
def fallbackPasswordHash : String :=
  "$argon2id$v=19$m=15000,t=2,p=1$gZiV/M1gPc22ElAH/Jh1Hw$CWOrkoo7oBQ/iyh7uJ0lO2aLEfrHwTWllSAxT0Rno"

/-- Oracle for the external argon2 crate: phcParseOk models whether
    PasswordHash.new succeeds on a PHC string, verifyOk models whether
    Argon2 default verify_password accepts a candidate password (second
    argument) against a parsed hash (first argument). -/
structure ArgonOracle where
  phcParseOk : String → Bool
  verifyOk : String → String → Bool

/-- get_stored_credentials from src/authentication.rs: fetch_optional
    of SELECT user_id, password_hash FROM users WHERE username = $1,
    mapped to a pair. fetch_optional returns the first matching row. -/
def get_stored_credentials (username : String) (users : List UserRow) :
    Option (Nat × String) :=
  (users.find? (fun r => r.username == username)).map
    (fun r => (r.user_id, r.password_hash))

/-- verify_password_hash from src/authentication.rs: parse the expected
    PHC string (parse failure propagates as UnexpectedError via the
    anyhow context conversion), then run Argon2 verification; a
    mismatch is always AuthError InvalidCredentials. -/
def verify_password_hash (oracle : ArgonOracle)
    (expected_password_hash : String) (password_candidate : String) :
    Except AuthError Unit :=
  if oracle.phcParseOk expected_password_hash then
    if oracle.verifyOk expected_password_hash password_candidate then
      Except.ok ()
    else
      Except.error AuthError.invalidCredentials
  else
    Except.error AuthError.unexpectedError

/-- Result of validate_credentials together with the list of
    verification calls actually executed ((expected hash, candidate)
    pairs handed to verify_password_hash on the blocking pool). The
    trace makes the unconditional-verification property statable. -/
structure AuthOutcome where
  result : Except AuthError Nat
  verifications : List (String × String)
deriving Repr

/-- validate_credentials from src/authentication.rs (the file
    src/authentication/password.rs is a near-identical copy): start
    with user_id none and the fixed fallback hash, overwrite both when
    get_stored_credentials finds a row, dispatch exactly one
    verify_password_hash call on the blocking worker pool (spawnOk
    models dispatch success; dispatch failure is UnexpectedError and
    the closure does not report a verification), propagate the
    verification error through the double question-mark, and only then
    turn the optional user_id into a result, with none mapped to
    InvalidCredentials. -/
def validate_credentials (oracle : ArgonOracle) (spawnOk : Bool)
    (credentials : Credentials) (users : List UserRow) : AuthOutcome :=
  let found := get_stored_credentials credentials.username users
  let user_id : Option Nat := found.map Prod.fst
  let expected_password_hash : String :=
    match found with
    | some (_, storedHash) => storedHash
    | none => fallbackPasswordHash
  if spawnOk then
    match verify_password_hash oracle expected_password_hash credentials.password with
    | Except.error e =>
        { result := Except.error e
          verifications := [(expected_password_hash, credentials.password)] }
    | Except.ok () =>
        { result :=
            match user_id with
            | some id => Except.ok id
            | none => Except.error AuthError.invalidCredentials
          verifications := [(expected_password_hash, credentials.password)] }
  else
    { result := Except.error AuthError.unexpectedError
      verifications := [] }

/-- The expected hash that validate_credentials verifies against:
    the stored hash when the username has a row, else the fixed
    fallback hash. -/
def expectedHashFor (credentials : Credentials) (users : List UserRow) : String :=
  match get_stored_credentials credentials.username users with
  | some (_, storedHash) => storedHash
  | none => fallbackPasswordHash

end Authentication

/-! ## NewsletterPublisher (src/routes/newsletters.rs) -/

namespace NewslettersRoute

/-- PublishError from src/routes/newsletters.rs. -/
inductive PublishError where
  | authError
  | unexpectedError
deriving DecidableEq, Repr

/-- The modelled HTTP response of the route: a status code and the
    optional WWW-Authenticate challenge header. -/
structure HttpReply where
  status : Nat
  wwwAuthenticate : Option String
deriving DecidableEq, Repr

/-- ResponseError error_response for PublishError: AuthError yields 401
    with the Basic realm challenge header, UnexpectedError yields a
    bare 500. -/
def error_response : PublishError → HttpReply
  | PublishError.authError =>
      { status := 401, wwwAuthenticate := some "Basic realm=\"publish\"" }
  | PublishError.unexpectedError =>
      { status := 500, wwwAuthenticate := none }

/-- The users table as the newsletters-route validate_credentials query
    expects it: SELECT user_id FROM users WHERE username = $1 AND
    password = $2 reads a plaintext password column. The repository
    schema (migrations, tests/api/helpers.rs, src/authentication.rs)
    has no such column, only password_hash; this row type exists to
    give that query a meaning at all. -/
structure RouteUserRow where
  user_id : Nat
  username : String
  password : String
deriving DecidableEq, Repr

/-- validate_credentials from src/routes/newsletters.rs (lines
    163-185): fetch_optional of the two-condition equality query; a
    matching row yields its user_id, no row yields AuthError. The
    candidate password is compared by plain string equality; no hash
    verification is involved. -/
def validate_credentials (username : String) (password : String)
    (users : List RouteUserRow) : Except PublishError Nat :=
  match users.find? (fun r => r.username == username && r.password == password) with
  | some r => Except.ok r.user_id
  | none => Except.error PublishError.authError

/-- Content from src/routes/newsletters.rs. -/
structure Content where
  html : String
  text : String
deriving DecidableEq, Repr

/-- BodyData from src/routes/newsletters.rs. -/
structure BodyData where
  title : String
  content : Content
deriving DecidableEq, Repr

/-- A raw publish payload before serde deserialization: each expected
    field is either present or missing. -/
structure RawContent where
  html : Option String
  text : Option String
deriving DecidableEq, Repr

/-- A raw publish payload before serde deserialization. -/
structure RawBodyData where
  title : Option String
  content : Option RawContent
deriving DecidableEq, Repr

/-- Serde deserialization of BodyData as performed by the actix
    web Json extractor: it succeeds exactly when every field is
    present; no further constraint (in particular no non-emptiness
    check) is applied. A failure makes actix answer 400 before the
    handler runs. -/
def deserializeBodyData (raw : RawBodyData) : Option BodyData :=
  match raw.title, raw.content with
  | some t, some c =>
      match c.html, c.text with
      | some h, some x => some { title := t, content := { html := h, text := x } }
      | _, _ => none
  | _, _ => none

/-- get_confirmed_subscribers from src/routes/newsletters.rs: select
    the email of every subscriptions row whose status is confirmed,
    then re-validate each stored email with SubscriberEmail parse
    (the external validator crate, modelled by the isValidEmail
    oracle); valid rows become ok entries, invalid rows error
    entries. -/
def get_confirmed_subscribers (isValidEmail : String → Bool)
    (store : Store) : List (Except String String) :=
  ((store.subscriptions.filter
      (fun r => r.status == SubStatus.confirmed)).map
      (fun r => r.email)).map
    (fun email =>
      if isValidEmail email then Except.ok email else Except.error email)

/-- The fan-out loop of publish_newletter (lines 215-242): iterate the
    subscriber list in order; an ok entry is sent through the email
    client (gatewayOk models send_email success) and a failure returns
    early through the question mark as UnexpectedError; an error entry
    is only logged as a warning and the loop continues. The second
    component records the recipients the gateway was actually called
    for, in call order, including the failing call. -/
def sendLoop (gatewayOk : String → Bool) :
    List (Except String String) → Except PublishError Unit × List String
  | [] => (Except.ok (), [])
  | Except.ok email :: rest =>
      if gatewayOk email then
        let result := sendLoop gatewayOk rest
        (result.1, email :: result.2)
      else
        (Except.error PublishError.unexpectedError, [email])
  | Except.error _ :: rest => sendLoop gatewayOk rest

/-- publish_newletter from src/routes/newsletters.rs (the function
    name keeps the source spelling): Json extraction of the body (400
    on failure, before the handler), basic_authentication of the
    Authorization header (any decode failure is AuthError, hence 401
    with the challenge), the route-local validate_credentials, then
    get_confirmed_subscribers (fetchOk models the database query;
    failure is UnexpectedError) and the sequential fan-out loop; if
    the loop completes the route answers 200. The second component is
    the list of gateway send calls made. -/
def publish_newletter (raw : RawBodyData)
    (authHeader : Except Unit Authentication.Credentials)
    (users : List RouteUserRow) (fetchOk : Bool)
    (isValidEmail : String → Bool) (gatewayOk : String → Bool)
    (store : Store) : HttpReply × List String :=
  match deserializeBodyData raw with
  | none => ({ status := 400, wwwAuthenticate := none }, [])
  | some _body =>
      match authHeader with
      | Except.error _ => (error_response PublishError.authError, [])
      | Except.ok credentials =>
          match validate_credentials credentials.username credentials.password users with
          | Except.error e => (error_response e, [])
          | Except.ok _user_id =>
              if fetchOk then
                let subscribers := get_confirmed_subscribers isValidEmail store
                match sendLoop gatewayOk subscribers with
                | (Except.ok (), sent) =>
                    ({ status := 200, wwwAuthenticate := none }, sent)
                | (Except.error e, sent) => (error_response e, sent)
              else
                (error_response PublishError.unexpectedError, [])

/-- The confirmed subscriber emails that survive read-time
    re-validation: the recipients the fan-out will attempt, in store
    order. -/
def okRecipients (isValidEmail : String → Bool) (store : Store) : List String :=
  ((store.subscriptions.filter
      (fun r => r.status == SubStatus.confirmed)).map
      (fun r => r.email)).filter isValidEmail

/-- The payloads of the ok entries of a subscriber list, in order. -/
def okEntries : List (Except String String) → List String
  | [] => []
  | Except.ok email :: rest => email :: okEntries rest
  | Except.error _ :: rest => okEntries rest

end NewslettersRoute

/-! ## Subscriber name validation (src/domain.rs) -/

namespace Domain

/-- Code points with the Unicode White_Space property, which is what
    the Rust str trim method strips. -/
def whitespaceCodes : List Nat :=
  [0x9, 0xA, 0xB, 0xC, 0xD, 0x20, 0x85, 0xA0, 0x1680,
   0x2000, 0x2001, 0x2002, 0x2003, 0x2004, 0x2005, 0x2006, 0x2007,
   0x2008, 0x2009, 0x200A, 0x2028, 0x2029, 0x202F, 0x205F, 0x3000]

/-- Whether a character is stripped by the Rust str trim method. -/
def rustIsWhitespace (c : Char) : Bool :=
  whitespaceCodes.contains c.toNat

/-- A candidate subscriber name. The character sequence carries the
    content; graphemeCount is the count of user-perceived characters
    as computed by the external unicode-segmentation crate (it equals
    the character count for ASCII input, which is what every concrete
    input below uses). -/
structure NameInput where
  chars : List Char
  graphemeCount : Nat
deriving DecidableEq, Repr

/-- The forbidden character list of SubscriberName parse in
    src/domain.rs: slash, parentheses, double quote, angle brackets,
    backslash, semicolon and both curly braces (the last four written
    by code point). -/
def forbidden_characters : List Char :=
  ['/', '(', ')', Char.ofNat 0x22, '<', '>', Char.ofNat 0x5C, ';',
   Char.ofNat 0x7B, Char.ofNat 0x7D]

/-- The trimmed-empty test of SubscriberName parse: trim returns a view
    without leading and trailing whitespace, and the test asks whether
    that view is empty. -/
def is_empty_or_whitespace (s : NameInput) : Bool :=
  (((s.chars.dropWhile rustIsWhitespace).reverse.dropWhile
      rustIsWhitespace).reverse).isEmpty

/-- The length test of SubscriberName parse: more than 256 grapheme
    clusters. -/
def is_too_long (s : NameInput) : Bool :=
  decide (s.graphemeCount > 256)

/-- The forbidden-character test of SubscriberName parse, which runs
    over chars, not graphemes. -/
def contains_forbidden_characters (s : NameInput) : Bool :=
  s.chars.any (fun c => forbidden_characters.contains c)

/-- Possible outcomes of SubscriberName parse. The source signature is
    Result of SubscriberName or String, so rejected models the Err
    branch the signature promises; panicked models a Rust panic, which
    unwinds past the caller instead of returning. -/
inductive NameParseResult where
  | ok (value : NameInput)
  | rejected
  | panicked
deriving DecidableEq, Repr

namespace SubscriberName

/-- SubscriberName parse from src/domain.rs lines 16-31: compute the
    three validity tests and, when any fails, panic with a message;
    only valid input returns, wrapped in Ok. No code path builds the
    Err variant of the declared Result type. -/
def parse (s : NameInput) : NameParseResult :=
  if is_empty_or_whitespace s || is_too_long s || contains_forbidden_characters s then
    NameParseResult.panicked
  else
    NameParseResult.ok s

end SubscriberName

end Domain

/-! ## ConfirmationHandler (src/routes/subscriptions_confirm.rs) -/

namespace SubscriptionsConfirm

/-- Parameters from src/routes/subscriptions_confirm.rs: the expected
    query parameter. The actix Query extractor answers 400 before the
    handler when it is absent, so the handler always receives one. -/
structure Parameters where
  subscription_token : String
deriving DecidableEq, Repr

/-- confirm from src/routes/subscriptions_confirm.rs lines 14-17: the
    handler binds the query parameters to an unused underscore name
    and unconditionally answers HttpResponse Ok; it never reads or
    writes the store, so the store passes through unchanged. -/
def confirm (_parameters : Parameters) (store : Store) : Nat × Store :=
  (200, store)

end SubscriptionsConfirm

/-! ## SubscriptionRegistrar (src/routes/subscriptions.rs) -/

namespace Subscriptions

/-- SubscribeError from src/routes/subscriptions.rs; ValidationError
    maps to 400 and UnexpectedError to 500 in the ResponseError
    implementation. -/
inductive SubscribeError where
  | validationError
  | unexpectedError
deriving DecidableEq, Repr

/-- How one call of the subscribe handler terminates: a Rust panic
    (name validation), an error response, or success with HTTP 200. -/
inductive HandlerOutcome where
  | panicked
  | failure (e : SubscribeError)
  | success (status : Nat)
deriving DecidableEq, Repr

/-- FormData from src/routes/subscriptions.rs. -/
structure FormData where
  email : String
  name : Domain.NameInput
deriving DecidableEq, Repr

/-- Success or failure of each external interaction of the subscribe
    handler, in the order the handler performs them: acquire and begin
    the transaction, execute the subscriber insert, execute the token
    insert, commit, send the confirmation email. -/
structure SubscribeOracle where
  beginOk : Bool
  insertOk : Bool
  storeTokenOk : Bool
  commitOk : Bool
  sendEmailOk : Bool
deriving DecidableEq, Repr

/-- The external interactions the handler actually performed, in
    order. -/
inductive SubscribeEvent where
  | txBegin
  | insertSubscriber
  | storeToken
  | txCommit
  | sendEmail
deriving DecidableEq, Repr

/-- An open sqlx transaction: writes buffered since begin. Executing a
    query on the transaction buffers its row; dropping the transaction
    without commit discards the buffer (sqlx rollback-on-drop), and
    commit atomically applies it to the store. -/
structure OpenTransaction where
  pendingSubscriptions : List SubscriberRow
  pendingTokens : List TokenRow
deriving DecidableEq, Repr

/-- insert_subscriber from src/routes/subscriptions.rs: execute an
    INSERT INTO subscriptions with a fresh uuid (the newId parameter,
    since Uuid new_v4 is random), the parsed email and name, and
    status pending_confirmation, on the open transaction. -/
def insert_subscriber (transaction : OpenTransaction) (newId : Nat)
    (email : String) (name : String) : OpenTransaction :=
  { transaction with
      pendingSubscriptions := transaction.pendingSubscriptions ++
        [{ id := newId, email := email, name := name,
           status := SubStatus.pendingConfirmation }] }

/-- store_token from src/routes/subscriptions.rs: execute an INSERT
    INTO subscription_tokens binding the token to the subscriber id,
    on the same open transaction. -/
def store_token (transaction : OpenTransaction) (subscriber_id : Nat)
    (subscription_token : String) : OpenTransaction :=
  { transaction with
      pendingTokens := transaction.pendingTokens ++
        [{ subscription_token := subscription_token,
           subscriber_id := subscriber_id }] }

/-- Commit of the open transaction: apply every buffered write to the
    durable store at once. -/
def commitTransaction (store : Store) (transaction : OpenTransaction) : Store :=
  { subscriptions := store.subscriptions ++ transaction.pendingSubscriptions
    subscription_tokens := store.subscription_tokens ++ transaction.pendingTokens }

/-- What one subscribe call produced: the handler outcome, the durable
    store afterwards, and the trace of performed interactions. -/
structure SubscribeResult where
  response : HandlerOutcome
  store : Store
  events : List SubscribeEvent
deriving DecidableEq, Repr

/-- subscribe from src/routes/subscriptions.rs lines 250-331. The
    TryFrom conversion parses the name first (SubscriberName parse
    panics on invalid input, so the handler can only panic there,
    never see a name error) and then the email (the external validator
    crate is the isValidEmail oracle; a parse error becomes
    ValidationError through the question mark). Then: begin a
    transaction (failure is UnexpectedError), insert the subscriber
    with the fresh id newId (failure drops the open transaction,
    rolling its buffer back), generate the 25-character token (random,
    hence the token parameter), store it in the same transaction
    (failure likewise rolls back), commit (failure is UnexpectedError,
    nothing applied), and only after the commit send the confirmation
    email; a send failure is reported as UnexpectedError but the
    committed store is untouched. -/
def subscribe (isValidEmail : String → Bool) (o : SubscribeOracle)
    (newId : Nat) (token : String) (form : FormData) (store : Store) :
    SubscribeResult :=
  match Domain.SubscriberName.parse form.name with
  | Domain.NameParseResult.panicked =>
      { response := HandlerOutcome.panicked, store := store, events := [] }
  | Domain.NameParseResult.rejected =>
      { response := HandlerOutcome.failure SubscribeError.validationError
        store := store, events := [] }
  | Domain.NameParseResult.ok name =>
      if isValidEmail form.email then
        if o.beginOk then
          let tx0 : OpenTransaction := { pendingSubscriptions := [], pendingTokens := [] }
          if o.insertOk then
            let tx1 := insert_subscriber tx0 newId form.email (String.mk name.chars)
            if o.storeTokenOk then
              let tx2 := store_token tx1 newId token
              if o.commitOk then
                let committed := commitTransaction store tx2
                if o.sendEmailOk then
                  { response := HandlerOutcome.success 200
                    store := committed
                    events := [SubscribeEvent.txBegin, SubscribeEvent.insertSubscriber,
                               SubscribeEvent.storeToken, SubscribeEvent.txCommit,
                               SubscribeEvent.sendEmail] }
                else
                  { response := HandlerOutcome.failure SubscribeError.unexpectedError
                    store := committed
                    events := [SubscribeEvent.txBegin, SubscribeEvent.insertSubscriber,
                               SubscribeEvent.storeToken, SubscribeEvent.txCommit,
                               SubscribeEvent.sendEmail] }
              else
                { response := HandlerOutcome.failure SubscribeError.unexpectedError
                  store := store
                  events := [SubscribeEvent.txBegin, SubscribeEvent.insertSubscriber,
                             SubscribeEvent.storeToken, SubscribeEvent.txCommit] }
            else
              { response := HandlerOutcome.failure SubscribeError.unexpectedError
                store := store
                events := [SubscribeEvent.txBegin, SubscribeEvent.insertSubscriber,
                           SubscribeEvent.storeToken] }
          else
            { response := HandlerOutcome.failure SubscribeError.unexpectedError
              store := store
              events := [SubscribeEvent.txBegin, SubscribeEvent.insertSubscriber] }
        else
          { response := HandlerOutcome.failure SubscribeError.unexpectedError
            store := store
            events := [SubscribeEvent.txBegin] }
      else
        { response := HandlerOutcome.failure SubscribeError.validationError
          store := store, events := [] }

end Subscriptions

end Zero2Prod

/-! ## Theorems -/

open Zero2Prod

section AuthTheorems

open Zero2Prod.Authentication

/-- C4: in validate_credentials, hash verification executes
    unconditionally. The first conjunct shows that exactly one
    verify_password_hash call is dispatched for every request, whose
    expected hash is the stored one when the username has a row and
    the fixed well-known reference hash otherwise, so an unknown
    username and a known username follow the same verification-call
    trace (the structural property the latency-indistinguishability
    requirement rests on; wall-clock time itself is outside the
    embedding). The second conjunct shows an unknown username returns
    InvalidCredentials, the third that a known username with a
    non-verifying password returns InvalidCredentials as well. -/
theorem c4_verification_is_unconditional
    (oracle : ArgonOracle) (credentials : Credentials) (users : List UserRow)
    (hFallback : oracle.phcParseOk fallbackPasswordHash = true) :
    (validate_credentials oracle true credentials users).verifications
      = [(expectedHashFor credentials users, credentials.password)]
    ∧ (get_stored_credentials credentials.username users = none →
        (validate_credentials oracle true credentials users).result
          = Except.error AuthError.invalidCredentials)
    ∧ (∀ id storedHash,
        get_stored_credentials credentials.username users = some (id, storedHash) →
        oracle.phcParseOk storedHash = true →
        oracle.verifyOk storedHash credentials.password = false →
        (validate_credentials oracle true credentials users).result
          = Except.error AuthError.invalidCredentials) := by
  refine ⟨?_, ?_, ?_⟩
  · cases hfind : get_stored_credentials credentials.username users with
    | none =>
        simp only [validate_credentials, expectedHashFor, verify_password_hash, hfind]
        cases hp : oracle.phcParseOk fallbackPasswordHash <;>
          cases hv : oracle.verifyOk fallbackPasswordHash credentials.password <;> simp
    | some p =>
        obtain ⟨id, storedHash⟩ := p
        simp only [validate_credentials, expectedHashFor, verify_password_hash, hfind]
        cases hp : oracle.phcParseOk storedHash <;>
          cases hv : oracle.verifyOk storedHash credentials.password <;> simp
  · intro hfind
    simp only [validate_credentials, verify_password_hash, hfind, hFallback]
    cases hv : oracle.verifyOk fallbackPasswordHash credentials.password <;> simp
  · intro id storedHash hfind hp hv
    simp only [validate_credentials, verify_password_hash, hfind, hp, hv]
    simp

/-- C4 witness: with an argon oracle that parses every PHC string and
    rejects every candidate, an unknown username is verified against
    the fixed fallback hash and reported as InvalidCredentials. -/
theorem c4_witness :
    (validate_credentials
        { phcParseOk := fun _ => true, verifyOk := fun _ _ => false }
        true { username := "ghost", password := "pw" } []).verifications
      = [(fallbackPasswordHash, "pw")]
    ∧ (validate_credentials
        { phcParseOk := fun _ => true, verifyOk := fun _ _ => false }
        true { username := "ghost", password := "pw" } []).result
      = Except.error AuthError.invalidCredentials := by
  have h := c4_verification_is_unconditional
    { phcParseOk := fun _ => true, verifyOk := fun _ _ => false }
    { username := "ghost", password := "pw" } [] rfl
  exact ⟨h.1, h.2.1 rfl⟩

/-- C10: a username with no stored credential row is always rejected
    with InvalidCredentials, whatever the supplied password and
    whatever the Argon2 verification outcome against the substituted
    reference hash, because the user id variable is only assigned when
    a credential row was found. -/
theorem c10_unknown_username_never_authenticated
    (phcParseOk : String → Bool) (verifyOk : String → String → Bool)
    (credentials : Credentials) (users : List UserRow)
    (hNone : get_stored_credentials credentials.username users = none)
    (hFallback : phcParseOk fallbackPasswordHash = true) :
    (validate_credentials { phcParseOk := phcParseOk, verifyOk := verifyOk }
        true credentials users).result
      = Except.error AuthError.invalidCredentials := by
  simp only [validate_credentials, verify_password_hash, hNone, hFallback]
  cases hv : verifyOk fallbackPasswordHash credentials.password <;> simp

/-- C10 witness: even an oracle whose verification accepts every
    candidate against every hash, in particular the supplied password
    against the substituted reference hash, yields InvalidCredentials
    for a username with no row. -/
theorem c10_witness :
    (validate_credentials
        { phcParseOk := fun _ => true, verifyOk := fun _ _ => true }
        true { username := "ghost", password := "pw" } []).result
      = Except.error AuthError.invalidCredentials :=
  c10_unknown_username_never_authenticated (fun _ => true) (fun _ _ => true)
    { username := "ghost", password := "pw" } [] rfl rfl

/-- C3: the credential check actually used by the publish route
    diverges from the CredentialValidator. With one seeded user whose
    stored credential is an Argon2 PHC hash of the password pw (the
    oracle verifies pw against exactly that hash, as the argon2 crate
    would), the CredentialValidator accepts the correct password and
    returns the user id, while the route-local check, which compares
    the supplied plaintext against the stored column by string
    equality, rejects the same request with AuthError, hence a 401
    challenge instead of acceptance. -/
theorem c3_route_check_diverges_from_validator :
    (validate_credentials
        { phcParseOk := fun _ => true
          verifyOk := fun h c =>
            h == "$argon2id$v=19$m=15000,t=2,p=1$c2FsdHNhbHQ$aGFzaGhhc2g" && c == "pw" }
        true { username := "operator", password := "pw" }
        [{ user_id := 7, username := "operator"
           password_hash := "$argon2id$v=19$m=15000,t=2,p=1$c2FsdHNhbHQ$aGFzaGhhc2g" }]).result
      = Except.ok 7
    ∧ NewslettersRoute.validate_credentials "operator" "pw"
        [{ user_id := 7, username := "operator"
           password := "$argon2id$v=19$m=15000,t=2,p=1$c2FsdHNhbHQ$aGFzaGhhc2g" }]
      = Except.error NewslettersRoute.PublishError.authError
    ∧ NewslettersRoute.error_response NewslettersRoute.PublishError.authError
      = { status := 401, wwwAuthenticate := some "Basic realm=\"publish\"" } := by
  refine ⟨?_, ?_, ?_⟩ <;> rfl

end AuthTheorems

section ConfirmTheorems

open Zero2Prod.SubscriptionsConfirm

/-- C1: the confirm handler is a stub that contradicts the claimed
    behavior. On a store holding one pending subscriber whose bound
    token is the 25-character value below, confirm with that token
    answers 200 but leaves the store, including the subscriber status,
    completely unchanged (first two conjuncts), and confirm with a
    token bound to no subscriber also answers 200 rather than any
    client-visible rejection and also leaves the store unchanged (last
    two conjuncts). -/
theorem c1_confirm_handler_ignores_token :
    (confirm { subscription_token := "aaaaabbbbbcccccdddddeeeee" }
        { subscriptions := [{ id := 1, email := "ursula@example.com"
                              name := "le guin"
                              status := SubStatus.pendingConfirmation }]
          subscription_tokens := [{ subscription_token := "aaaaabbbbbcccccdddddeeeee"
                                    subscriber_id := 1 }] }).1 = 200
    ∧ (confirm { subscription_token := "aaaaabbbbbcccccdddddeeeee" }
        { subscriptions := [{ id := 1, email := "ursula@example.com"
                              name := "le guin"
                              status := SubStatus.pendingConfirmation }]
          subscription_tokens := [{ subscription_token := "aaaaabbbbbcccccdddddeeeee"
                                    subscriber_id := 1 }] }).2.subscriptions
      = [{ id := 1, email := "ursula@example.com", name := "le guin"
           status := SubStatus.pendingConfirmation }]
    ∧ (confirm { subscription_token := "zzzzzzzzzzzzzzzzzzzzzzzzz" }
        { subscriptions := [{ id := 1, email := "ursula@example.com"
                              name := "le guin"
                              status := SubStatus.pendingConfirmation }]
          subscription_tokens := [{ subscription_token := "aaaaabbbbbcccccdddddeeeee"
                                    subscriber_id := 1 }] }).1 = 200
    ∧ (confirm { subscription_token := "zzzzzzzzzzzzzzzzzzzzzzzzz" }
        { subscriptions := [{ id := 1, email := "ursula@example.com"
                              name := "le guin"
                              status := SubStatus.pendingConfirmation }]
          subscription_tokens := [{ subscription_token := "aaaaabbbbbcccccdddddeeeee"
                                    subscriber_id := 1 }] }).2
      = { subscriptions := [{ id := 1, email := "ursula@example.com"
                              name := "le guin"
                              status := SubStatus.pendingConfirmation }]
          subscription_tokens := [{ subscription_token := "aaaaabbbbbcccccdddddeeeee"
                                    subscriber_id := 1 }] } :=
  ⟨rfl, rfl, rfl, rfl⟩

end ConfirmTheorems

section DomainTheorems

open Zero2Prod.Domain

/-- Dropping leading whitespace from a nonempty run of the letter a
    removes nothing. -/
theorem dropWhile_ws_replicate_a (n : Nat) :
    List.dropWhile rustIsWhitespace (List.replicate (n + 1) 'a')
      = List.replicate (n + 1) 'a' := by
  have h : rustIsWhitespace 'a' = false := by decide
  rw [List.replicate_succ, List.dropWhile_cons, h]
  simp

/-- A run of the letter a contains no forbidden character. -/
theorem any_forbidden_replicate_a (n : Nat) :
    (List.replicate n 'a').any
      (fun c => forbidden_characters.contains c) = false := by
  have h : forbidden_characters.contains 'a' = false := by decide
  induction n with
  | zero => rfl
  | succ m ih => rw [List.replicate_succ, List.any_cons, h, ih]; rfl

/-- A nonempty run of the letter a is not trimmed-empty. -/
theorem is_empty_or_whitespace_replicate_a (n k : Nat) :
    is_empty_or_whitespace
      { chars := List.replicate (n + 1) 'a', graphemeCount := k } = false := by
  unfold is_empty_or_whitespace
  rw [show ({ chars := List.replicate (n + 1) 'a', graphemeCount := k } :
        NameInput).chars = List.replicate (n + 1) 'a' from rfl]
  rw [dropWhile_ws_replicate_a n, List.reverse_replicate,
    dropWhile_ws_replicate_a n, List.reverse_replicate, List.replicate_succ]
  rfl

/-- C8: name validation diverges from the claim on the rejection path.
    A name consisting of the single forbidden character, a whitespace
    only name, and a 257-grapheme name all make SubscriberName parse
    panic (unwinding the request) instead of returning the Err the
    declared Result type, the claimed ValidationError and the unit
    tests in src/domain.rs expect; a 256-grapheme name is accepted as
    the claim states. -/
theorem c8_invalid_name_panics_not_rejected :
    SubscriberName.parse { chars := ['<'], graphemeCount := 1 }
      = NameParseResult.panicked
    ∧ SubscriberName.parse { chars := [' '], graphemeCount := 1 }
      = NameParseResult.panicked
    ∧ SubscriberName.parse
        { chars := List.replicate 257 'a', graphemeCount := 257 }
      = NameParseResult.panicked
    ∧ SubscriberName.parse
        { chars := List.replicate 256 'a', graphemeCount := 256 }
      = NameParseResult.ok { chars := List.replicate 256 'a', graphemeCount := 256 } := by
  refine ⟨by decide, by decide, ?_, ?_⟩
  · have htoo : is_too_long
        { chars := List.replicate 257 'a', graphemeCount := 257 } = true := rfl
    unfold SubscriberName.parse
    rw [htoo]
    simp only [Bool.or_true, Bool.true_or, if_true]
  · have hempty := is_empty_or_whitespace_replicate_a 255 256
    have htoo : is_too_long
        { chars := List.replicate 256 'a', graphemeCount := 256 } = false := rfl
    have hforb : contains_forbidden_characters
        { chars := List.replicate 256 'a', graphemeCount := 256 } = false :=
      any_forbidden_replicate_a 256
    unfold SubscriberName.parse
    rw [show (256 : Nat) = 255 + 1 from rfl] at hempty
    rw [show (List.replicate 256 'a') = List.replicate (255 + 1) 'a' from rfl]
    rw [hempty, htoo, hforb]
    rfl

end DomainTheorems

section SubscribeTheorems

open Zero2Prod.Subscriptions

/-- C2: registration is atomic. For every valid name and email: when
    the subscriber insert, the token insert and the commit all
    succeed, the final store holds exactly one new
    pending-confirmation subscriber row and exactly one new token row
    bound to its id, both appended by the single commit (first
    conjunct); when the token insert fails, the early return drops the
    open transaction, so the store is completely unchanged, the
    subscriber insert included, and the caller sees UnexpectedError
    (second conjunct); and in every execution whatever succeeds or
    fails, the store is either unchanged or extended by the subscriber
    row and its bound token row together, so a subscriber is never
    visible without its token (third conjunct). -/
theorem c2_register_atomically_persists_subscriber_and_token
    (isValidEmail : String → Bool) (o : SubscribeOracle) (newId : Nat)
    (token : String) (form : FormData) (store : Store)
    (hname : Domain.SubscriberName.parse form.name
      = Domain.NameParseResult.ok form.name)
    (hemail : isValidEmail form.email = true) :
    (o.beginOk = true → o.insertOk = true → o.storeTokenOk = true →
      o.commitOk = true →
      (subscribe isValidEmail o newId token form store).store.subscriptions
        = store.subscriptions ++
          [{ id := newId, email := form.email
             name := String.mk form.name.chars
             status := SubStatus.pendingConfirmation }]
      ∧ (subscribe isValidEmail o newId token form store).store.subscription_tokens
        = store.subscription_tokens ++
          [{ subscription_token := token, subscriber_id := newId }])
    ∧ (o.storeTokenOk = false →
      (subscribe isValidEmail o newId token form store).store = store
      ∧ (subscribe isValidEmail o newId token form store).response
        = HandlerOutcome.failure SubscribeError.unexpectedError)
    ∧ ((subscribe isValidEmail o newId token form store).store = store
      ∨ ((subscribe isValidEmail o newId token form store).store.subscriptions
          = store.subscriptions ++
            [{ id := newId, email := form.email
               name := String.mk form.name.chars
               status := SubStatus.pendingConfirmation }]
        ∧ (subscribe isValidEmail o newId token form store).store.subscription_tokens
          = store.subscription_tokens ++
            [{ subscription_token := token, subscriber_id := newId }])) := by
  obtain ⟨b1, b2, b3, b4, b5⟩ := o
  cases b1 <;> cases b2 <;> cases b3 <;> cases b4 <;> cases b5 <;>
    simp [subscribe, hname, hemail, insert_subscriber, store_token,
      commitTransaction]

/-- C2 witness: a concrete valid registration against the empty store
    with every interaction succeeding ends with exactly the one
    pending subscriber row and its one bound token row. -/
theorem c2_witness :
    (subscribe (fun _ => true)
        { beginOk := true, insertOk := true, storeTokenOk := true
          commitOk := true, sendEmailOk := true }
        1 "aaaaabbbbbcccccdddddeeeee"
        { email := "ursula@example.com"
          name := { chars := ['l', 'e'], graphemeCount := 2 } }
        { subscriptions := [], subscription_tokens := [] }).store.subscriptions
      = [{ id := 1, email := "ursula@example.com", name := String.mk ['l', 'e']
           status := SubStatus.pendingConfirmation }]
    ∧ (subscribe (fun _ => true)
        { beginOk := true, insertOk := true, storeTokenOk := true
          commitOk := true, sendEmailOk := true }
        1 "aaaaabbbbbcccccdddddeeeee"
        { email := "ursula@example.com"
          name := { chars := ['l', 'e'], graphemeCount := 2 } }
        { subscriptions := [], subscription_tokens := [] }).store.subscription_tokens
      = [{ subscription_token := "aaaaabbbbbcccccdddddeeeee"
           subscriber_id := 1 }] := by
  have h := c2_register_atomically_persists_subscriber_and_token
    (fun _ => true)
    { beginOk := true, insertOk := true, storeTokenOk := true
      commitOk := true, sendEmailOk := true }
    1 "aaaaabbbbbcccccdddddeeeee"
    { email := "ursula@example.com"
      name := { chars := ['l', 'e'], graphemeCount := 2 } }
    { subscriptions := [], subscription_tokens := [] }
    (by decide) rfl
  exact ⟨(h.1 rfl rfl rfl rfl).1, (h.1 rfl rfl rfl rfl).2⟩

/-- C7: a confirmation-email failure after the commit does not undo
    the committed subscription. With every database interaction
    succeeding and the email send failing, the handler reports
    UnexpectedError, yet the final store still holds the newly
    committed pending-confirmation subscriber row and its bound token
    row (first three conjuncts); and in every execution that reaches
    the email gateway at all, the event trace is begin, insert
    subscriber, store token, commit, send email, so the transaction is
    committed strictly before the gateway call and never spans it
    (last conjunct). -/
theorem c7_email_failure_keeps_committed_subscription
    (isValidEmail : String → Bool) (o : SubscribeOracle) (newId : Nat)
    (token : String) (form : FormData) (store : Store)
    (hname : Domain.SubscriberName.parse form.name
      = Domain.NameParseResult.ok form.name)
    (hemail : isValidEmail form.email = true)
    (hb : o.beginOk = true) (hi : o.insertOk = true)
    (hs : o.storeTokenOk = true) (hc : o.commitOk = true)
    (he : o.sendEmailOk = false) :
    (subscribe isValidEmail o newId token form store).response
      = HandlerOutcome.failure SubscribeError.unexpectedError
    ∧ (subscribe isValidEmail o newId token form store).store.subscriptions
      = store.subscriptions ++
        [{ id := newId, email := form.email
           name := String.mk form.name.chars
           status := SubStatus.pendingConfirmation }]
    ∧ (subscribe isValidEmail o newId token form store).store.subscription_tokens
      = store.subscription_tokens ++
        [{ subscription_token := token, subscriber_id := newId }]
    ∧ (∀ o2 : SubscribeOracle,
        SubscribeEvent.sendEmail ∈
          (subscribe isValidEmail o2 newId token form store).events →
        (subscribe isValidEmail o2 newId token form store).events
          = [SubscribeEvent.txBegin, SubscribeEvent.insertSubscriber,
             SubscribeEvent.storeToken, SubscribeEvent.txCommit,
             SubscribeEvent.sendEmail]) := by
  obtain ⟨b1, b2, b3, b4, b5⟩ := o
  simp only at hb hi hs hc he
  subst hb; subst hi; subst hs; subst hc; subst he
  refine ⟨?_, ?_, ?_, ?_⟩
  · simp [subscribe, hname, hemail]
  · simp [subscribe, hname, hemail, insert_subscriber, store_token,
      commitTransaction]
  · simp [subscribe, hname, hemail, insert_subscriber, store_token,
      commitTransaction]
  · intro o2
    obtain ⟨c1, c2, c3, c4, c5⟩ := o2
    cases c1 <;> cases c2 <;> cases c3 <;> cases c4 <;> cases c5 <;>
      simp [subscribe, hname, hemail]

/-- C7 witness: the concrete registration of the C2 witness with a
    failing email gateway reports UnexpectedError while the subscriber
    row stays committed. -/
theorem c7_witness :
    (subscribe (fun _ => true)
        { beginOk := true, insertOk := true, storeTokenOk := true
          commitOk := true, sendEmailOk := false }
        1 "aaaaabbbbbcccccdddddeeeee"
        { email := "ursula@example.com"
          name := { chars := ['l', 'e'], graphemeCount := 2 } }
        { subscriptions := [], subscription_tokens := [] }).response
      = HandlerOutcome.failure SubscribeError.unexpectedError
    ∧ (subscribe (fun _ => true)
        { beginOk := true, insertOk := true, storeTokenOk := true
          commitOk := true, sendEmailOk := false }
        1 "aaaaabbbbbcccccdddddeeeee"
        { email := "ursula@example.com"
          name := { chars := ['l', 'e'], graphemeCount := 2 } }
        { subscriptions := [], subscription_tokens := [] }).store.subscriptions
      = [{ id := 1, email := "ursula@example.com", name := String.mk ['l', 'e']
           status := SubStatus.pendingConfirmation }] := by
  have h := c7_email_failure_keeps_committed_subscription
    (fun _ => true)
    { beginOk := true, insertOk := true, storeTokenOk := true
      commitOk := true, sendEmailOk := false }
    1 "aaaaabbbbbcccccdddddeeeee"
    { email := "ursula@example.com"
      name := { chars := ['l', 'e'], graphemeCount := 2 } }
    { subscriptions := [], subscription_tokens := [] }
    (by decide) rfl rfl rfl rfl rfl rfl
  exact ⟨h.1, h.2.1⟩

end SubscribeTheorems

section PublishTheorems

open Zero2Prod.NewslettersRoute

/-- Mapping each email through the read-time validation and keeping
    the ok payloads is the same as filtering by the validation. -/
theorem okEntries_validation_map (isValidEmail : String → Bool)
    (emails : List String) :
    okEntries (emails.map (fun email =>
        if isValidEmail email then Except.ok email else Except.error email))
      = emails.filter isValidEmail := by
  induction emails with
  | nil => rfl
  | cons e rest ih =>
      cases hv : isValidEmail e <;>
        simp [okEntries, hv, ih, List.filter_cons]

/-- The ok payloads of get_confirmed_subscribers are exactly the
    confirmed emails that pass read-time validation. -/
theorem okEntries_get_confirmed_subscribers (isValidEmail : String → Bool)
    (store : Store) :
    okEntries (get_confirmed_subscribers isValidEmail store)
      = okRecipients isValidEmail store := by
  unfold get_confirmed_subscribers okRecipients
  exact okEntries_validation_map isValidEmail _

/-- When the gateway accepts every valid recipient, the fan-out loop
    completes and calls the gateway exactly on the ok entries, in
    order; error entries are skipped without aborting. -/
theorem sendLoop_all_ok (gatewayOk : String → Bool)
    (subscribers : List (Except String String))
    (h : ∀ e ∈ okEntries subscribers, gatewayOk e = true) :
    sendLoop gatewayOk subscribers = (Except.ok (), okEntries subscribers) := by
  induction subscribers with
  | nil => rfl
  | cons x rest ih =>
      cases x with
      | ok email =>
          have hge : gatewayOk email = true := h email (by simp [okEntries])
          have hrest : ∀ e ∈ okEntries rest, gatewayOk e = true := by
            intro e he
            exact h e (by simp [okEntries, he])
          simp [sendLoop, hge, okEntries, ih hrest]
      | error msg =>
          have hrest : ∀ e ∈ okEntries rest, gatewayOk e = true := by
            intro e he
            exact h e (by simp [okEntries, he])
          simp [sendLoop, okEntries, ih hrest]

/-- When the ok entries decompose into an accepted prefix, a first
    rejected recipient and a remainder, the fan-out loop stops at the
    rejected recipient: the gateway is called exactly on the prefix
    and the failing recipient, and the loop result is
    UnexpectedError. -/
theorem sendLoop_first_failure (gatewayOk : String → Bool)
    (subscribers : List (Except String String))
    (pre : List String) (f : String) (post : List String)
    (hdecomp : okEntries subscribers = pre ++ f :: post)
    (hpre : ∀ e ∈ pre, gatewayOk e = true)
    (hf : gatewayOk f = false) :
    sendLoop gatewayOk subscribers
      = (Except.error PublishError.unexpectedError, pre ++ [f]) := by
  induction subscribers generalizing pre with
  | nil => simp [okEntries] at hdecomp
  | cons x rest ih =>
      cases x with
      | error msg =>
          have hdecomp2 : okEntries rest = pre ++ f :: post := by
            simpa [okEntries] using hdecomp
          simpa [sendLoop] using ih pre hdecomp2 hpre
      | ok email =>
          cases pre with
          | nil =>
              have hef : email = f ∧ okEntries rest = post := by
                simpa [okEntries] using hdecomp
              rw [hef.1] at *
              simp [sendLoop, hf]
          | cons p ps =>
              have hep : email = p ∧ okEntries rest = ps ++ f :: post := by
                simpa [okEntries] using hdecomp
              obtain ⟨hep1, hep2⟩ := hep
              subst hep1
              have hgp : gatewayOk email = true := hpre email (by simp)
              have hps : ∀ e ∈ ps, gatewayOk e = true := by
                intro e he
                exact hpre e (by simp [he])
              simp [sendLoop, hgp, ih ps hep2 hps]

/-- C5: the fan-out is strictly sequential and the first gateway
    failure aborts the rest of the publish call. Whenever the body
    deserializes, the credentials authenticate, the recipients query
    succeeds, and the recipients surviving read-time validation split
    into a prefix the gateway accepts, a first recipient f it rejects,
    and any remainder, the route answers with the UnexpectedError
    response (500) and the gateway was called exactly on the prefix
    and on f: no recipient after the first failing one is ever sent
    to. -/
theorem c5_first_gateway_failure_aborts_fanout
    (raw : RawBodyData) (authHeader : Except Unit Authentication.Credentials)
    (users : List RouteUserRow) (isValidEmail : String → Bool)
    (gatewayOk : String → Bool) (store : Store)
    (body : BodyData) (credentials : Authentication.Credentials) (uid : Nat)
    (pre : List String) (f : String) (post : List String)
    (hbody : deserializeBodyData raw = some body)
    (hauth : authHeader = Except.ok credentials)
    (hvalid : validate_credentials credentials.username credentials.password users
      = Except.ok uid)
    (hdecomp : okRecipients isValidEmail store = pre ++ f :: post)
    (hpre : ∀ e ∈ pre, gatewayOk e = true)
    (hf : gatewayOk f = false) :
    publish_newletter raw authHeader users true isValidEmail gatewayOk store
      = (error_response PublishError.unexpectedError, pre ++ [f]) := by
  have hloop := sendLoop_first_failure gatewayOk
    (get_confirmed_subscribers isValidEmail store) pre f post
    (by rw [okEntries_get_confirmed_subscribers]; exact hdecomp) hpre hf
  simp [publish_newletter, hbody, hauth, hvalid, hloop]

/-- C5 witness: with one seeded operator, four confirmed rows of which
    one stored email fails re-validation, and a gateway that rejects
    the second surviving recipient, the publish call answers 500 and
    the gateway was called exactly on the first and second surviving
    recipients, never on the third. -/
theorem c5_witness :
    publish_newletter
      { title := some "T", content := some { html := some "H", text := some "X" } }
      (Except.ok { username := "operator", password := "pw" })
      [{ user_id := 7, username := "operator", password := "pw" }]
      true
      (fun e => !(e == "bad"))
      (fun e => !(e == "b@x.com"))
      { subscriptions :=
          [{ id := 1, email := "a@x.com", name := "A", status := SubStatus.confirmed },
           { id := 2, email := "bad", name := "B", status := SubStatus.confirmed },
           { id := 3, email := "b@x.com", name := "C", status := SubStatus.confirmed },
           { id := 4, email := "c@x.com", name := "D", status := SubStatus.confirmed },
           { id := 5, email := "p@x.com", name := "E"
             status := SubStatus.pendingConfirmation }]
        subscription_tokens := [] }
      = (error_response PublishError.unexpectedError, ["a@x.com", "b@x.com"]) := by
  have h := c5_first_gateway_failure_aborts_fanout
    { title := some "T", content := some { html := some "H", text := some "X" } }
    (Except.ok { username := "operator", password := "pw" })
    [{ user_id := 7, username := "operator", password := "pw" }]
    (fun e => !(e == "bad"))
    (fun e => !(e == "b@x.com"))
    { subscriptions :=
        [{ id := 1, email := "a@x.com", name := "A", status := SubStatus.confirmed },
         { id := 2, email := "bad", name := "B", status := SubStatus.confirmed },
         { id := 3, email := "b@x.com", name := "C", status := SubStatus.confirmed },
         { id := 4, email := "c@x.com", name := "D", status := SubStatus.confirmed },
         { id := 5, email := "p@x.com", name := "E"
           status := SubStatus.pendingConfirmation }]
      subscription_tokens := [] }
    { title := "T", content := { html := "H", text := "X" } }
    { username := "operator", password := "pw" } 7
    ["a@x.com"] "b@x.com" ["c@x.com"]
    rfl rfl rfl (by decide) (by decide) rfl
  exact h

/-- C6: rows whose stored email fails read-time re-validation are
    skipped without aborting the publish. Whenever the body
    deserializes, the credentials authenticate, the recipients query
    succeeds and the gateway accepts every recipient surviving
    read-time validation, the route answers 200 and the gateway was
    called exactly on the surviving recipients, however many stored
    rows were skipped; with zero confirmed subscribers the surviving
    list is empty, so the call succeeds with zero gateway calls. -/
theorem c6_invalid_rows_skipped_and_publish_succeeds
    (raw : RawBodyData) (authHeader : Except Unit Authentication.Credentials)
    (users : List RouteUserRow) (isValidEmail : String → Bool)
    (gatewayOk : String → Bool) (store : Store)
    (body : BodyData) (credentials : Authentication.Credentials) (uid : Nat)
    (hbody : deserializeBodyData raw = some body)
    (hauth : authHeader = Except.ok credentials)
    (hvalid : validate_credentials credentials.username credentials.password users
      = Except.ok uid)
    (hsend : ∀ e ∈ okRecipients isValidEmail store, gatewayOk e = true) :
    publish_newletter raw authHeader users true isValidEmail gatewayOk store
      = ({ status := 200, wwwAuthenticate := none },
         okRecipients isValidEmail store) := by
  have hloop := sendLoop_all_ok gatewayOk
    (get_confirmed_subscribers isValidEmail store)
    (by rw [okEntries_get_confirmed_subscribers]; exact hsend)
  rw [okEntries_get_confirmed_subscribers] at hloop
  simp [publish_newletter, hbody, hauth, hvalid, hloop]

/-- C6 witness: one confirmed row with an invalid stored email and one
    with a valid one; the publish answers 200 and the gateway is
    called once, on the valid recipient only. A second application on
    a store with zero confirmed subscribers gives 200 with zero
    gateway calls. -/
theorem c6_witness :
    publish_newletter
      { title := some "T", content := some { html := some "H", text := some "X" } }
      (Except.ok { username := "operator", password := "pw" })
      [{ user_id := 7, username := "operator", password := "pw" }]
      true
      (fun e => !(e == "bad"))
      (fun _ => true)
      { subscriptions :=
          [{ id := 1, email := "bad", name := "B", status := SubStatus.confirmed },
           { id := 2, email := "a@x.com", name := "A", status := SubStatus.confirmed }]
        subscription_tokens := [] }
      = ({ status := 200, wwwAuthenticate := none }, ["a@x.com"])
    ∧ publish_newletter
      { title := some "T", content := some { html := some "H", text := some "X" } }
      (Except.ok { username := "operator", password := "pw" })
      [{ user_id := 7, username := "operator", password := "pw" }]
      true
      (fun e => !(e == "bad"))
      (fun _ => true)
      { subscriptions := [], subscription_tokens := [] }
      = ({ status := 200, wwwAuthenticate := none }, []) := by
  constructor
  · exact c6_invalid_rows_skipped_and_publish_succeeds
      { title := some "T", content := some { html := some "H", text := some "X" } }
      (Except.ok { username := "operator", password := "pw" })
      [{ user_id := 7, username := "operator", password := "pw" }]
      (fun e => !(e == "bad")) (fun _ => true)
      { subscriptions :=
          [{ id := 1, email := "bad", name := "B", status := SubStatus.confirmed },
           { id := 2, email := "a@x.com", name := "A", status := SubStatus.confirmed }]
        subscription_tokens := [] }
      { title := "T", content := { html := "H", text := "X" } }
      { username := "operator", password := "pw" } 7
      rfl rfl rfl (by decide)
  · exact c6_invalid_rows_skipped_and_publish_succeeds
      { title := some "T", content := some { html := some "H", text := some "X" } }
      (Except.ok { username := "operator", password := "pw" })
      [{ user_id := 7, username := "operator", password := "pw" }]
      (fun e => !(e == "bad")) (fun _ => true)
      { subscriptions := [], subscription_tokens := [] }
      { title := "T", content := { html := "H", text := "X" } }
      { username := "operator", password := "pw" } 7
      rfl rfl rfl (by decide)

/-- C9 counterexample: a publish payload whose title, html body and
    text body are all present but empty is not rejected. With a seeded
    operator and one confirmed subscriber, the route answers 200, not
    400, and the gateway is called once, so an empty field neither
    yields a 400 nor prevents gateway sends, contradicting the claim
    at this concrete input. -/
theorem c9_counterexample_empty_fields_accepted :
    publish_newletter
      { title := some "", content := some { html := some "", text := some "" } }
      (Except.ok { username := "operator", password := "pw" })
      [{ user_id := 7, username := "operator", password := "pw" }]
      true
      (fun _ => true)
      (fun _ => true)
      { subscriptions :=
          [{ id := 1, email := "ursula@example.com", name := "U"
             status := SubStatus.confirmed }]
        subscription_tokens := [] }
      = ({ status := 200, wwwAuthenticate := none }, ["ursula@example.com"]) := by
  rfl

/-- C9 amended: the publish payload fields are required but not
    checked for emptiness. Deserialization fails exactly when the
    title, the content object, or its html or text field is missing
    (first conjunct), and a payload that fails deserialization is
    rejected with 400 before any gateway send (second conjunct);
    fields that are present but empty pass deserialization and are
    published as-is. -/
theorem c9_missing_fields_rejected_before_sends
    (raw : RawBodyData) (authHeader : Except Unit Authentication.Credentials)
    (users : List RouteUserRow) (fetchOk : Bool)
    (isValidEmail : String → Bool) (gatewayOk : String → Bool)
    (store : Store) :
    (deserializeBodyData raw = none ↔
      raw.title = none ∨ raw.content = none ∨
        ∃ c, raw.content = some c ∧ (c.html = none ∨ c.text = none))
    ∧ (deserializeBodyData raw = none →
      publish_newletter raw authHeader users fetchOk isValidEmail gatewayOk store
        = ({ status := 400, wwwAuthenticate := none }, [])) := by
  constructor
  · obtain ⟨t, c⟩ := raw
    cases t with
    | none => simp [deserializeBodyData]
    | some tv =>
        cases c with
        | none => simp [deserializeBodyData]
        | some cv =>
            obtain ⟨h, x⟩ := cv
            cases h <;> cases x <;> simp [deserializeBodyData]
  · intro hnone
    simp [publish_newletter, hnone]

/-- C9 amended witness: a payload missing its title is answered with
    400 and zero gateway calls. -/
theorem c9_witness :
    publish_newletter
      { title := none, content := some { html := some "H", text := some "X" } }
      (Except.ok { username := "operator", password := "pw" })
      [{ user_id := 7, username := "operator", password := "pw" }]
      true (fun _ => true) (fun _ => true)
      { subscriptions := [], subscription_tokens := [] }
      = ({ status := 400, wwwAuthenticate := none }, []) :=
  (c9_missing_fields_rejected_before_sends
    { title := none, content := some { html := some "H", text := some "X" } }
    (Except.ok { username := "operator", password := "pw" })
    [{ user_id := 7, username := "operator", password := "pw" }]
    true (fun _ => true) (fun _ => true)
    { subscriptions := [], subscription_tokens := [] }).2 rfl

end PublishTheorems
